import Mathlib

/-!
Verification of the tangerine recording-to-transcript pipeline.

Shallow embedding of the Rust sources under `app/src-tauri/src/`:
string search, retry policy and error classification (`stt/retry.rs`),
the pipeline state machine and orchestration (`pipeline.rs`), the rolling
audio buffer (`audio_capture.rs`) and the voice-activity detector
(`vad.rs`).  Machine integers are modelled as `Nat`; `std::time::Duration`
values are modelled as a count of nanoseconds, saturating at the value of
`Duration::MAX`.
-/

namespace Tangerine

/-! ## String helpers

`strContains s sub` models Rust `str::contains` with a string pattern
(substring test); `strToLower` models `str::to_lowercase` (the messages
involved are ASCII, where `Char.toLower` agrees with Rust). -/

def strContains (s sub : String) : Bool :=
  s.data.tails.any (fun t => sub.data.isPrefixOf t)

def strToLower (s : String) : String :=
  String.mk (s.data.map Char.toLower)

/-! ## `stt` module: error type

The `SttError` enum is declared in the `stt` module; its five variants are
pinned by the exhaustive `match` in `stt/retry.rs::is_retryable_error`. -/

inductive SttError where
  | Network (msg : String)
  | Timeout
  | Api (msg : String)
  | Audio (msg : String)
  | Config (msg : String)
deriving DecidableEq, Repr

/-! ## `stt/retry.rs` -/

/-- `u32::MAX`, the saturation point of `2u32.saturating_pow(attempt)`. -/
def U32_MAX : Nat := 2 ^ 32 - 1

/-- `Duration::MAX` in nanoseconds (`u64::MAX` seconds plus `10^9 - 1` ns),
the saturation point of `Duration::saturating_mul`. -/
def DURATION_MAX_NS : Nat := (2 ^ 64 - 1) * 1000000000 + 999999999

/-- `RetryConfig` from `stt/retry.rs`; delays in nanoseconds. -/
structure RetryConfig where
  max_retries : Nat
  initial_delay : Nat
  max_delay : Nat
  retry_on_rate_limit : Bool
deriving DecidableEq, Repr

/-- `RetryConfig::default()`: 3 retries, 500 ms initial delay, 10 s max
delay, retry on rate limit. -/
def RetryConfig.default_config : RetryConfig :=
  { max_retries := 3
    initial_delay := 500000000
    max_delay := 10000000000
    retry_on_rate_limit := true }

/-- `RetryConfig::delay_for_attempt`:
`min(initial_delay.saturating_mul(2u32.saturating_pow(attempt)), max_delay)`. -/
def RetryConfig.delay_for_attempt (c : RetryConfig) (attempt : Nat) : Nat :=
  min (min (c.initial_delay * min (2 ^ attempt) U32_MAX) DURATION_MAX_NS) c.max_delay

/-- `is_retryable_error` from `stt/retry.rs`. -/
def is_retryable_error : SttError → Bool
  | .Network _ => true
  | .Timeout => true
  | .Api msg =>
      strContains msg "500" || strContains msg "502" || strContains msg "503" ||
      strContains msg "504" || strContains msg "429" ||
      strContains (strToLower msg) "rate limit" ||
      strContains (strToLower msg) "too many requests"
  | .Audio _ => false
  | .Config _ => false

/-- Loop body of `with_retry`.  The operation outcomes are given as a
sequence `op : Nat → Except SttError α` (outcome of the `attempt`-th
invocation); the result is paired with the total number of invocations.
The fuel argument counts the remaining iterations of
`for attempt in 0..=max_retries`; the fuel-0 branch is the
`last_error.unwrap_or_else` fallback after the loop, unreachable from
`with_retry` itself. -/
def with_retry_go (c : RetryConfig) (op : Nat → Except SttError α) :
    Nat → Nat → Except SttError α × Nat
  | attempt, 0 => (.error (.Api "All retry attempts exhausted"), attempt)
  | attempt, fuel + 1 =>
      match op attempt with
      | .ok v => (.ok v, attempt + 1)
      | .error e =>
          if is_retryable_error e = false ∨ attempt = c.max_retries then
            (.error e, attempt + 1)
          else
            with_retry_go c op (attempt + 1) fuel

/-- `with_retry` from `stt/retry.rs`: run the operation for attempts
`0..=max_retries`, stopping at the first success or non-retryable (or
final) failure.  Returns the result and the number of invocations. -/
def with_retry (c : RetryConfig) (op : Nat → Except SttError α) :
    Except SttError α × Nat :=
  with_retry_go c op 0 (c.max_retries + 1)

/-! Spec-side definitions for claims C5 and C6, written from the claims'
words, to be compared with the source definitions above. -/

/-- The three-character decimal string of the HTTP code `500 + d`. -/
def code_string (d : Nat) : String :=
  String.mk ['5', Char.ofNat (48 + d / 10 % 10), Char.ofNat (48 + d % 10)]

/-- Claimed in C5: the message "contains a 5xx code", i.e. some code in
`500..=599` occurs as a substring. -/
def contains_5xx (m : String) : Bool :=
  (List.range 100).any (fun d => strContains m (code_string d))

/-- The classification claim C5 states: Network and Timeout retryable; Api
retryable iff the message contains a 5xx code, `429`, or (case-insensitively)
`rate limit` / `too many requests`; Audio and Config never retryable. -/
def claimed_retryable_C5 : SttError → Bool
  | .Network _ => true
  | .Timeout => true
  | .Api msg =>
      contains_5xx msg || strContains msg "429" ||
      strContains (strToLower msg) "rate limit" ||
      strContains (strToLower msg) "too many requests"
  | .Audio _ => false
  | .Config _ => false

/-- The classification of the amended claim C5: as `claimed_retryable_C5`
but with the literal codes `500`, `502`, `503`, `504` in place of
"any 5xx code". -/
def amended_retryable_C5 : SttError → Bool
  | .Network _ => true
  | .Timeout => true
  | .Api msg =>
      (["500", "502", "503", "504", "429"].any fun c => strContains msg c) ||
      strContains (strToLower msg) "rate limit" ||
      strContains (strToLower msg) "too many requests"
  | .Audio _ => false
  | .Config _ => false

/-- The backoff formula claim C6 states: `min(initial_delay * 2^n, max_delay)`,
saturating only when the product overflows a `Duration`. -/
def claimed_delay_C6 (c : RetryConfig) (attempt : Nat) : Nat :=
  min (min (c.initial_delay * 2 ^ attempt) DURATION_MAX_NS) c.max_delay

/-! ## `audio_capture.rs`: error type and `pipeline.rs`: state machine -/

deriving instance DecidableEq for Except

/-- `AudioCaptureError` from `audio_capture.rs`. -/
inductive AudioCaptureError where
  | NoInputDevice
  | DeviceConfig (msg : String)
  | StreamBuild (msg : String)
  | StreamStart (msg : String)
  | Encoding (msg : String)
  | NotActive
  | ThreadError (msg : String)
deriving DecidableEq, Repr

/-- `PipelineError` from `pipeline.rs`.  `LlmError` lives in the `llm`
module and is never inspected by the pipeline (rewrite failures are
swallowed), so it is carried as its display message. -/
inductive PipelineError where
  | AudioCapture (e : AudioCaptureError)
  | Stt (e : SttError)
  | Llm (msg : String)
  | NoProvider
  | AlreadyRecording
  | NotRecording
  | Config (msg : String)
  | Lock (msg : String)
  | Cancelled
  | Timeout (ns : Nat)
  | RecordingTooLarge (actual limit : Nat)
deriving DecidableEq, Repr

/-- `PipelineState` from `pipeline.rs`. -/
inductive PipelineState where
  | Idle
  | Recording
  | Transcribing
  | Error
deriving DecidableEq, Repr

/-- `matches!(self, PipelineState::Idle | PipelineState::Error)` -/
def PipelineState.can_start_recording : PipelineState → Bool
  | .Idle => true
  | .Error => true
  | _ => false

/-- `matches!(self, PipelineState::Recording)` -/
def PipelineState.can_stop_recording : PipelineState → Bool
  | .Recording => true
  | _ => false

/-- `matches!(self, PipelineState::Recording | PipelineState::Transcribing)` -/
def PipelineState.can_cancel : PipelineState → Bool
  | .Recording => true
  | .Transcribing => true
  | _ => false

/-- The fields of `PipelineInner` the state-machine claims depend on: the
current state, the stored per-session cancellation token (tokens carry an
identity, modelled as a `Nat`), and `config.max_recording_bytes`. -/
structure PipelineInner where
  state : PipelineState
  cancel_token : Option Nat
  max_recording_bytes : Nat
deriving DecidableEq, Repr

/-- `PipelineInner::reset_to_idle`. -/
def PipelineInner.reset_to_idle (p : PipelineInner) : PipelineInner :=
  { p with state := .Idle, cancel_token := none }

/-- `PipelineInner::set_error` (the log message does not affect state). -/
def PipelineInner.set_error (p : PipelineInner) : PipelineInner :=
  { p with state := .Error, cancel_token := none }

/-- Observable side effects of `SharedPipeline::cancel`: whether the stored
cancellation token was signalled, and whether audio capture was stopped. -/
structure CancelEffects where
  token_signalled : Bool
  capture_stopped : Bool
deriving DecidableEq, Repr

/-- `SharedPipeline::cancel` from `pipeline.rs`: guarded by `can_cancel`;
on the guarded path it signals the stored token (if any), stops capture if
recording, and resets to idle. -/
def cancel (p : PipelineInner) : PipelineInner × CancelEffects :=
  if p.state.can_cancel = false then
    (p, ⟨false, false⟩)
  else
    let signalled := p.cancel_token.isSome
    let stopped := p.state = .Recording
    (PipelineInner.reset_to_idle { p with cancel_token := none },
      ⟨signalled, stopped⟩)

/-- `SharedPipeline::stop_recording` from `pipeline.rs`.  The outcome of
`audio_capture.stop_and_get_wav()` is an input of the model (the device
layer is an external collaborator); WAV bytes are modelled as a list of
naturals. -/
def stop_recording (p : PipelineInner)
    (wav : Except AudioCaptureError (List Nat)) :
    PipelineInner × Except PipelineError (List Nat) :=
  if p.state.can_stop_recording = false then
    (p, .error .NotRecording)
  else
    match wav with
    | .ok wav_bytes =>
        if p.max_recording_bytes > 0 ∧ wav_bytes.length > p.max_recording_bytes then
          (p.set_error, .error (.RecordingTooLarge wav_bytes.length p.max_recording_bytes))
        else
          (p.reset_to_idle, .ok wav_bytes)
    | .error e => (p.set_error, .error (.AudioCapture e))

/-- Resolution of a biased `tokio::select!` race between the session's
cancellation token, a timeout sleep, and a primary operation: exactly one
branch resolves. -/
inductive RaceOutcome (α : Type) where
  | cancelled
  | timed_out
  | completed (r : α)
deriving DecidableEq, Repr

/-- The per-session inputs of `stop_and_transcribe` that come from outside
the state machine: the capture result, whether an STT provider and an LLM
(rewrite) provider are configured, the configured transcription timeout,
and the resolutions of the two races. -/
structure SessionEnv where
  wav : Except AudioCaptureError (List Nat)
  has_provider : Bool
  has_llm : Bool
  timeout_ns : Nat
  stt_race : RaceOutcome (Except SttError String)
  llm_race : RaceOutcome (Except String String)
deriving DecidableEq, Repr

/-- `SharedPipeline::stop_and_transcribe` from `pipeline.rs`, as a state
transformer: phase 1 validates the guard, the capture result and the size
limit and moves to `Transcribing`; phase 2 races cancellation / timeout /
retried transcription (cancellation resolves to idle, other failures to
error); phase 3 races cancellation / rewrite timeout / rewrite call, where
rewrite timeout and rewrite error fall back to the raw transcript; phase 4
resets to idle on success. -/
def stop_and_transcribe (p : PipelineInner) (env : SessionEnv) :
    PipelineInner × Except PipelineError String :=
  if p.state.can_stop_recording = false then
    (p, .error .NotRecording)
  else
    match env.wav with
    | .error e => (p.set_error, .error (.AudioCapture e))
    | .ok wav_bytes =>
        if p.max_recording_bytes > 0 ∧ wav_bytes.length > p.max_recording_bytes then
          (p.set_error, .error (.RecordingTooLarge wav_bytes.length p.max_recording_bytes))
        else
          let pt : PipelineInner := { p with state := .Transcribing }
          if env.has_provider = false then
            (pt.set_error, .error .NoProvider)
          else
            match env.stt_race with
            | .cancelled => (pt.reset_to_idle, .error .Cancelled)
            | .timed_out => (pt.set_error, .error (.Timeout env.timeout_ns))
            | .completed (.error e) => (pt.set_error, .error (.Stt e))
            | .completed (.ok transcript) =>
                if env.has_llm then
                  match env.llm_race with
                  | .cancelled => (pt.reset_to_idle, .error .Cancelled)
                  | .timed_out => (pt.reset_to_idle, .ok transcript)
                  | .completed (.ok formatted) => (pt.reset_to_idle, .ok formatted)
                  | .completed (.error _) => (pt.reset_to_idle, .ok transcript)
                else
                  (pt.reset_to_idle, .ok transcript)

/-! ## `audio_capture.rs`: `AudioBuffer`

Samples are `f32` in the source; their values never affect the buffer
logic, so the sample type is a parameter.  `max_duration_secs` is an `f32`
in the source; it is modelled as a `Nat` (whole seconds), under which the
source's cap computation
`(sample_rate as f32 * max_duration_secs * channels as f32) as usize`
is the exact product (it is exact whenever the product is exactly
representable in `f32`, which holds for the defaults `44100 * 300 * 1`
and for every instance the claims mention). -/

structure AudioBuffer (α : Type) where
  samples : List α
  sample_rate : Nat
  channels : Nat
  max_duration_secs : Nat
deriving Repr

/-- `AudioBuffer::new` (the `Vec` capacity hint has no observable effect). -/
def AudioBuffer.new (α : Type) (sample_rate channels max_duration_secs : Nat) :
    AudioBuffer α :=
  { samples := [], sample_rate, channels, max_duration_secs }

/-- The trimming cap recomputed on every append:
`(sample_rate as f32 * max_duration_secs * channels as f32) as usize`. -/
def AudioBuffer.max_samples (b : AudioBuffer α) : Nat :=
  b.sample_rate * b.max_duration_secs * b.channels

/-- `AudioBuffer::append`: extend, then drain `len - max_samples` elements
from the front when the length exceeds the cap. -/
def AudioBuffer.append (b : AudioBuffer α) (new_samples : List α) : AudioBuffer α :=
  let extended := b.samples ++ new_samples
  if extended.length > b.max_samples then
    { b with samples := extended.drop (extended.length - b.max_samples) }
  else
    { b with samples := extended }

/-! ## `vad.rs`: `VoiceActivityDetector` -/

/-- `VadAggressiveness` from `vad.rs`. -/
inductive VadAggressiveness where
  | Quality
  | LowBitrate
  | Aggressive
  | VeryAggressive
deriving DecidableEq, Repr

/-- `VadConfig` from `vad.rs`. -/
structure VadConfig where
  aggressiveness : VadAggressiveness
  speech_frames_threshold : Nat
  hangover_frames : Nat
  pre_roll_ms : Nat
  frame_duration_ms : Nat
  sample_rate : Nat
deriving DecidableEq, Repr

/-- `VadConfig::default()`. -/
def VadConfig.default_config : VadConfig :=
  { aggressiveness := .Aggressive
    speech_frames_threshold := 3
    hangover_frames := 30
    pre_roll_ms := 300
    frame_duration_ms := 10
    sample_rate := 16000 }

/-- `VadEvent` from `vad.rs`; samples are `i16`, modelled as `Int`. -/
inductive VadEvent where
  | None
  | SpeechStart (pre_roll : List Int)
  | SpeechEnd
deriving DecidableEq, Repr

/-- The mutable state of `VoiceActivityDetector` (the wrapped `webrtc_vad`
classifier handle is an external collaborator, see `process_frame`). -/
structure VoiceActivityDetector where
  config : VadConfig
  is_speaking : Bool
  silence_frames : Nat
  speech_frames : Nat
  pre_roll_buffer : List (List Int)
  pre_roll_max_frames : Nat
deriving DecidableEq, Repr

/-- `VoiceActivityDetector::new`:
`pre_roll_max_frames = pre_roll_ms / frame_duration_ms` (integer division). -/
def VoiceActivityDetector.new (config : VadConfig) : VoiceActivityDetector :=
  { config
    is_speaking := false
    silence_frames := 0
    speech_frames := 0
    pre_roll_buffer := []
    pre_roll_max_frames := config.pre_roll_ms / config.frame_duration_ms }

/-- `VoiceActivityDetector::process_frame`.  The verdict of the external
`webrtc_vad` classifier on this frame
(`self.vad.is_voice_segment(samples).unwrap_or(false)`) is the input
`is_speech`; everything after that classification is translated from the
source.  The pre-roll `VecDeque` is a list ordered front to back
(`push_back` appends, `pop_front` drops the head, `iter().flatten()` is
`List.flatten`). -/
def VoiceActivityDetector.process_frame (v : VoiceActivityDetector)
    (samples : List Int) (is_speech : Bool) :
    VoiceActivityDetector × VadEvent :=
  let pushed := v.pre_roll_buffer ++ [samples]
  let buf := if pushed.length > v.pre_roll_max_frames then pushed.drop 1 else pushed
  if is_speech then
    let speech := v.speech_frames + 1
    if v.is_speaking = false ∧ v.config.speech_frames_threshold ≤ speech then
      ({ v with pre_roll_buffer := buf, speech_frames := speech,
                silence_frames := 0, is_speaking := true },
        .SpeechStart buf.flatten)
    else
      ({ v with pre_roll_buffer := buf, speech_frames := speech,
                silence_frames := 0 },
        .None)
  else
    let silence := v.silence_frames + 1
    if v.is_speaking = true ∧ v.config.hangover_frames ≤ silence then
      ({ v with pre_roll_buffer := buf, silence_frames := silence,
                speech_frames := 0, is_speaking := false },
        .SpeechEnd)
    else
      ({ v with pre_roll_buffer := buf, silence_frames := silence,
                speech_frames := 0 },
        .None)

/-- Repeated `process_frame` calls over a sequence of frames, each paired
with the classifier's verdict for it; returns the final state and the
event returned for each frame, in order. -/
def VoiceActivityDetector.process_frames (v : VoiceActivityDetector) :
    List (List Int × Bool) → VoiceActivityDetector × List VadEvent
  | [] => (v, [])
  | f :: rest =>
      let step := v.process_frame f.1 f.2
      let tail := step.1.process_frames rest
      (tail.1, step.2 :: tail.2)

/-- The shape of a `VadEvent`, forgetting the pre-roll payload. -/
inductive VadEventKind where
  | noEvent
  | speechStart
  | speechEnd
deriving DecidableEq, Repr

/-- Map a `VadEvent` to its shape. -/
def VadEvent.event_kind : VadEvent → VadEventKind
  | .None => .noEvent
  | .SpeechStart _ => .speechStart
  | .SpeechEnd => .speechEnd

/-- A run of frames all classified as speech. -/
def speechRun (payloads : List (List Int)) : List (List Int × Bool) :=
  payloads.map (fun f => (f, true))

/-- A run of frames all classified as silence. -/
def silenceRun (payloads : List (List Int)) : List (List Int × Bool) :=
  payloads.map (fun f => (f, false))

/-! ## Claim C1: state guards match the table -/

/-- C1: the pipeline state guards are total functions of the state
(defined on all four states) and match the table: `can_start_recording`
holds exactly for Idle and Error; `can_stop_recording` holds exactly for
Recording; `can_cancel` holds exactly for Recording and Transcribing; for
Idle and Error both `can_stop_recording` and `can_cancel` are false. -/
theorem C1_state_guards_match_table :
    PipelineState.Idle.can_start_recording = true
  ∧ PipelineState.Error.can_start_recording = true
  ∧ PipelineState.Recording.can_start_recording = false
  ∧ PipelineState.Transcribing.can_start_recording = false
  ∧ PipelineState.Recording.can_stop_recording = true
  ∧ PipelineState.Idle.can_stop_recording = false
  ∧ PipelineState.Transcribing.can_stop_recording = false
  ∧ PipelineState.Error.can_stop_recording = false
  ∧ PipelineState.Recording.can_cancel = true
  ∧ PipelineState.Transcribing.can_cancel = true
  ∧ PipelineState.Idle.can_cancel = false
  ∧ PipelineState.Error.can_cancel = false := by
  decide

/-! ## Claim C10: cancel from Idle or Error is a no-op -/

/-- C10: calling `cancel` while the state is Idle or Error returns without
signalling any cancellation token, without stopping audio capture, and
leaves the pipeline state and the stored cancellation token unchanged. -/
theorem C10_cancel_noop_from_idle_or_error (p : PipelineInner)
    (h : p.state = .Idle ∨ p.state = .Error) :
    cancel p = (p, ⟨false, false⟩) := by
  have hc : p.state.can_cancel = false := by
    rcases h with h | h <;> rw [h] <;> rfl
  unfold cancel
  rw [hc]
  simp

/-- Witness for C10 at a concrete inner state holding a live token. -/
theorem C10_witness :
    cancel ⟨.Idle, some 5, 100⟩ = (⟨.Idle, some 5, 100⟩, ⟨false, false⟩) :=
  C10_cancel_noop_from_idle_or_error ⟨.Idle, some 5, 100⟩ (Or.inl rfl)

/-! ## Claim C8: guard violations -/

/-- Counterexample to C8 as stated: with the pipeline Idle, stopping does
return the NotRecording error, but the session does not move to the Error
state (it stays Idle), and a guard-violating `cancel` leaves the state
unchanged as well (it returns no error at all). -/
theorem C8_counterexample :
    (stop_recording ⟨.Idle, none, 100⟩ (.ok [])).2 = .error .NotRecording
  ∧ (stop_recording ⟨.Idle, none, 100⟩ (.ok [])).1.state = .Idle
  ∧ (stop_recording ⟨.Idle, none, 100⟩ (.ok [])).1.state ≠ .Error
  ∧ (stop_and_transcribe ⟨.Idle, none, 100⟩
        ⟨.ok [], true, false, 60, .completed (.ok "t"), .timed_out⟩).1.state ≠ .Error
  ∧ (cancel ⟨.Idle, none, 100⟩).1.state = .Idle
  ∧ (cancel ⟨.Idle, none, 100⟩).1.state ≠ .Error := by
  decide

/-- C8 (amended): calling `stop_recording` or `stop_and_transcribe` while
the state is not Recording surfaces the NotRecording error immediately
(no blocking, no panic) and leaves the pipeline state unchanged — it does
not move the session to Error; calling `cancel` while the state is
neither Recording nor Transcribing returns without surfacing any error
and with no effects, likewise leaving the state unchanged. -/
theorem C8_guard_violations (p : PipelineInner) (env : SessionEnv)
    (wav : Except AudioCaptureError (List Nat)) :
    (p.state.can_stop_recording = false →
        stop_recording p wav = (p, .error .NotRecording)
      ∧ stop_and_transcribe p env = (p, .error .NotRecording))
  ∧ (p.state.can_cancel = false → cancel p = (p, ⟨false, false⟩)) := by
  constructor
  · intro h
    constructor
    · unfold stop_recording; rw [h]; simp
    · unfold stop_and_transcribe; rw [h]; simp
  · intro h
    unfold cancel; rw [h]; simp

/-- Witness for C8 (amended) at a concrete Idle pipeline. -/
theorem C8_guard_violations_witness :
    (stop_recording ⟨.Idle, some 3, 100⟩ (.ok [7]) =
        (⟨.Idle, some 3, 100⟩, .error .NotRecording))
  ∧ (cancel ⟨.Idle, some 3, 100⟩ = (⟨.Idle, some 3, 100⟩, ⟨false, false⟩)) :=
  ⟨((C8_guard_violations ⟨.Idle, some 3, 100⟩
      ⟨.ok [], true, false, 60, .cancelled, .cancelled⟩ (.ok [7])).1 rfl).1,
    (C8_guard_violations ⟨.Idle, some 3, 100⟩
      ⟨.ok [], true, false, 60, .cancelled, .cancelled⟩ (.ok [7])).2 rfl⟩

/-! ## Claim C2: rewrite failure falls back to the raw transcript -/

/-- C2: in `stop_and_transcribe`, whenever the transcription phase
succeeds with transcript `t` and a rewrite (LLM) provider is configured,
if the rewrite race resolves to its timeout or to a rewrite error, the
call returns `Ok t` (the raw transcript, not an error) and the final
pipeline state is Idle, not Error. -/
theorem C2_rewrite_fallback (p : PipelineInner) (env : SessionEnv)
    (wav_bytes : List Nat) (t : String)
    (hst : p.state = .Recording)
    (hwav : env.wav = .ok wav_bytes)
    (hsize : ¬(p.max_recording_bytes > 0 ∧ wav_bytes.length > p.max_recording_bytes))
    (hprov : env.has_provider = true)
    (hstt : env.stt_race = .completed (.ok t))
    (hllm : env.has_llm = true)
    (hrace : env.llm_race = .timed_out ∨ ∃ e, env.llm_race = .completed (.error e)) :
    stop_and_transcribe p env =
      ({ p with state := .Idle, cancel_token := none }, .ok t) := by
  have hguard : p.state.can_stop_recording = true := by rw [hst]; rfl
  unfold stop_and_transcribe
  rw [hguard, hwav, hprov, hstt, hllm]
  rcases hrace with hrace | ⟨e, hrace⟩ <;>
    rw [hrace] <;>
    simp [hsize, PipelineInner.reset_to_idle]

/-- Witness for C2: a concrete session whose rewrite phase times out. -/
theorem C2_rewrite_fallback_witness :
    stop_and_transcribe ⟨.Recording, some 1, 100⟩
      ⟨.ok [1, 2, 3], true, true, 60, .completed (.ok "raw transcript"), .timed_out⟩ =
      (⟨.Idle, none, 100⟩, .ok "raw transcript") :=
  C2_rewrite_fallback ⟨.Recording, some 1, 100⟩
    ⟨.ok [1, 2, 3], true, true, 60, .completed (.ok "raw transcript"), .timed_out⟩
    [1, 2, 3] "raw transcript" rfl rfl (by decide) rfl rfl rfl (Or.inl rfl)

/-! ## Claim C3: cancellation resolves to Idle, never Error -/

/-- C3: `cancel` from any state permitting cancellation (Recording or
Transcribing) leaves the pipeline Idle; and every run of
`stop_and_transcribe` that resolves to the Cancelled branch — whether in
the transcription race or in the rewrite race — ends in the Idle state
with the Cancelled error as its result (in particular, any run whose
result is the Cancelled error ends Idle). -/
theorem C3_cancellation_resolves_to_idle (p : PipelineInner) (env : SessionEnv) :
    (p.state.can_cancel = true → (cancel p).1.state = .Idle)
  ∧ ((stop_and_transcribe p env).2 = .error .Cancelled →
      (stop_and_transcribe p env).1.state = .Idle)
  ∧ (∀ wav_bytes, env.wav = .ok wav_bytes → p.state = .Recording →
      ¬(p.max_recording_bytes > 0 ∧ wav_bytes.length > p.max_recording_bytes) →
      env.has_provider = true → env.stt_race = .cancelled →
      stop_and_transcribe p env =
        ({ p with state := .Idle, cancel_token := none }, .error .Cancelled))
  ∧ (∀ wav_bytes t, env.wav = .ok wav_bytes → p.state = .Recording →
      ¬(p.max_recording_bytes > 0 ∧ wav_bytes.length > p.max_recording_bytes) →
      env.has_provider = true → env.stt_race = .completed (.ok t) →
      env.has_llm = true → env.llm_race = .cancelled →
      stop_and_transcribe p env =
        ({ p with state := .Idle, cancel_token := none }, .error .Cancelled)) := by
  refine ⟨?_, ?_, ?_, ?_⟩
  · intro h
    unfold cancel
    rw [h]
    simp [PipelineInner.reset_to_idle]
  · intro h
    rcases env with ⟨wav, hp, hl, tns, stt, llmr⟩
    unfold stop_and_transcribe at h ⊢
    by_cases hg : p.state.can_stop_recording = false
    · rw [if_pos hg] at h
      simp at h
    · rw [if_neg hg] at h ⊢
      rcases wav with e | wav_bytes
      · simp at h
      · dsimp only at h ⊢
        by_cases hsz : p.max_recording_bytes > 0 ∧ wav_bytes.length > p.max_recording_bytes
        · rw [if_pos hsz] at h
          simp at h
        · rw [if_neg hsz] at h ⊢
          by_cases hpv : hp = false
          · rw [if_pos hpv] at h
            simp at h
          · rw [if_neg hpv] at h ⊢
            rcases stt with _ | _ | (e2 | t2)
            · rfl
            · simp at h
            · simp at h
            · dsimp only at h ⊢
              rcases hl with _ | _
              · rw [if_neg (by simp)] at h
                simp at h
              · rw [if_pos rfl] at h ⊢
                rcases llmr with _ | _ | (e3 | f) <;> rfl
  · intro wav_bytes hwav hst hsize hprov hstt
    have hguard : p.state.can_stop_recording = true := by rw [hst]; rfl
    unfold stop_and_transcribe
    rw [hguard, hwav, hprov, hstt]
    simp [hsize, PipelineInner.reset_to_idle]
  · intro wav_bytes t hwav hst hsize hprov hstt hllm hrace
    have hguard : p.state.can_stop_recording = true := by rw [hst]; rfl
    unfold stop_and_transcribe
    rw [hguard, hwav, hprov, hstt, hllm, hrace]
    simp [hsize, PipelineInner.reset_to_idle]

/-- Witness for C3: a concrete cancel from Recording and a concrete
session cancelled during the transcription race. -/
theorem C3_witness :
    (cancel ⟨.Recording, some 2, 100⟩).1.state = .Idle
  ∧ stop_and_transcribe ⟨.Recording, some 2, 100⟩
      ⟨.ok [1], true, false, 60, .cancelled, .cancelled⟩ =
      (⟨.Idle, none, 100⟩, .error .Cancelled) :=
  ⟨(C3_cancellation_resolves_to_idle ⟨.Recording, some 2, 100⟩
      ⟨.ok [1], true, false, 60, .cancelled, .cancelled⟩).1 rfl,
    (C3_cancellation_resolves_to_idle ⟨.Recording, some 2, 100⟩
      ⟨.ok [1], true, false, 60, .cancelled, .cancelled⟩).2.2.1
      [1] rfl rfl (by decide) rfl rfl⟩

/-! ## Claim C4: the rolling audio buffer is bounded and FIFO -/

/-- `append` leaves the cap unchanged (it only rewrites `samples`). -/
lemma AudioBuffer.append_max_samples (b : AudioBuffer α) (xs : List α) :
    (b.append xs).max_samples = b.max_samples := by
  unfold AudioBuffer.append
  dsimp only
  split <;> rfl

/-- Both branches of `append` compute the longest suffix of
`samples ++ new_samples` of length at most the cap. -/
lemma AudioBuffer.append_samples (b : AudioBuffer α) (xs : List α) :
    (b.append xs).samples =
      (b.samples ++ xs).drop ((b.samples ++ xs).length - b.max_samples) := by
  unfold AudioBuffer.append
  dsimp only
  split
  · rfl
  · next h =>
    rw [Nat.sub_eq_zero_of_le (Nat.le_of_not_lt h), List.drop_zero]

/-- Taking a length-`n` suffix, appending, and taking a length-`n` suffix
again is the same as appending and taking a length-`n` suffix once. -/
lemma drop_sub_append (n : Nat) (l m : List α) :
    (l.drop (l.length - n) ++ m).drop ((l.drop (l.length - n) ++ m).length - n)
      = (l ++ m).drop ((l ++ m).length - n) := by
  rcases Nat.le_total l.length n with hle | hge
  · rw [Nat.sub_eq_zero_of_le hle, List.drop_zero]
  · have hlen : (l.drop (l.length - n)).length = n := by
      rw [List.length_drop]; omega
    rw [List.length_append, List.length_append, hlen]
    have h1 : n + m.length - n = m.length := by omega
    rw [h1]
    rcases Nat.le_total m.length n with hm | hm
    · rw [List.drop_append_of_le_length (by omega),
        List.drop_append_of_le_length (by omega), List.drop_drop]
      have h2 : l.length - n + m.length = l.length + m.length - n := by omega
      rw [h2]
    · have h3 : m.length = (l.drop (l.length - n)).length + (m.length - n) := by
        rw [hlen]; omega
      have h4 : l.length + m.length - n = l.length + (m.length - n) := by omega
      rw [h4, List.drop_append]
      nth_rewrite 1 [h3]
      rw [List.drop_append]

/-- Folding `append` over any batch sequence keeps the invariant and
computes the length-`max_samples` suffix of everything appended so far. -/
lemma foldl_append_samples (batches : List (List α)) :
    ∀ b : AudioBuffer α, b.samples.length ≤ b.max_samples →
      ((batches.foldl AudioBuffer.append b).samples =
        (b.samples ++ batches.flatten).drop
          ((b.samples ++ batches.flatten).length - b.max_samples))
      ∧ (batches.foldl AudioBuffer.append b).max_samples = b.max_samples := by
  induction batches with
  | nil =>
      intro b hb
      refine ⟨?_, rfl⟩
      rw [List.foldl_nil, List.flatten_nil, List.append_nil,
        Nat.sub_eq_zero_of_le hb, List.drop_zero]
  | cons bs rest ih =>
      intro b hb
      have hmax := AudioBuffer.append_max_samples b bs
      have hlen : (b.append bs).samples.length ≤ (b.append bs).max_samples := by
        rw [AudioBuffer.append_samples, hmax, List.length_drop]
        omega
      obtain ⟨ih1, ih2⟩ := ih (b.append bs) hlen
      rw [List.foldl_cons]
      refine ⟨?_, by rw [ih2, hmax]⟩
      rw [ih1, hmax, AudioBuffer.append_samples,
        drop_sub_append b.max_samples (b.samples ++ bs) rest.flatten,
        List.flatten_cons, ← List.append_assoc]

/-- C4: for every buffer created by `AudioBuffer::new` and every sequence
of `append` calls, the retained samples are exactly the length-cap suffix
of all samples appended so far (excess dropped from the oldest end), so
the length never exceeds `sample_rate * channels * max_duration_secs`;
in particular at 1000 Hz, mono, 1 s cap, appending 2000 samples leaves
exactly the most recent 1000.  (Quantifying over all batch sequences
covers the state after each intermediate append, every prefix being a
batch sequence itself.) -/
theorem C4_audio_buffer_bounded_fifo (α : Type)
    (sample_rate channels max_duration_secs : Nat) (batches : List (List α)) :
    ((batches.foldl AudioBuffer.append
        (AudioBuffer.new α sample_rate channels max_duration_secs)).samples =
      batches.flatten.drop
        (batches.flatten.length - sample_rate * channels * max_duration_secs))
  ∧ ((batches.foldl AudioBuffer.append
        (AudioBuffer.new α sample_rate channels max_duration_secs)).samples.length
      ≤ sample_rate * channels * max_duration_secs)
  ∧ (((AudioBuffer.new Nat 1000 1 1).append (List.range 2000)).samples =
      (List.range 2000).drop 1000)
  ∧ ((AudioBuffer.new Nat 1000 1 1).append (List.range 2000)).samples.length = 1000 := by
  have hcap : (AudioBuffer.new α sample_rate channels max_duration_secs).max_samples =
      sample_rate * channels * max_duration_secs := by
    unfold AudioBuffer.new AudioBuffer.max_samples
    exact Nat.mul_right_comm sample_rate max_duration_secs channels
  have hmain := foldl_append_samples batches
    (AudioBuffer.new α sample_rate channels max_duration_secs) (by
      unfold AudioBuffer.new
      exact Nat.zero_le _)
  have h1 : (batches.foldl AudioBuffer.append
      (AudioBuffer.new α sample_rate channels max_duration_secs)).samples =
      batches.flatten.drop
        (batches.flatten.length - sample_rate * channels * max_duration_secs) := by
    rw [hmain.1, hcap]
    rfl
  refine ⟨h1, ?_, ?_, ?_⟩
  · rw [h1, List.length_drop]
    omega
  · rw [AudioBuffer.append_samples]
    simp [AudioBuffer.new, AudioBuffer.max_samples]
  · rw [AudioBuffer.append_samples, List.length_drop]
    simp [AudioBuffer.new, AudioBuffer.max_samples]

/-! ## Claims C5, C6, C9: retry policy -/

/-- One unfolding of the `with_retry` loop. -/
lemma with_retry_go_succ (c : RetryConfig) (op : Nat → Except SttError α)
    (attempt fuel : Nat) :
    with_retry_go c op attempt (fuel + 1) =
      match op attempt with
      | .ok v => (.ok v, attempt + 1)
      | .error e =>
          if is_retryable_error e = false ∨ attempt = c.max_retries then
            (.error e, attempt + 1)
          else
            with_retry_go c op (attempt + 1) fuel := rfl

/-- The loop of `with_retry` performs at most `fuel` further invocations. -/
lemma with_retry_go_count (c : RetryConfig) (op : Nat → Except SttError α) :
    ∀ fuel attempt, (with_retry_go c op attempt fuel).2 ≤ attempt + fuel := by
  intro fuel
  induction fuel with
  | zero => intro attempt; simp [with_retry_go]
  | succ f ih =>
      intro attempt
      rw [with_retry_go_succ]
      cases hop : op attempt with
      | ok v => dsimp only; omega
      | error e =>
          dsimp only
          split
          · dsimp only; omega
          · exact le_trans (ih (attempt + 1)) (by omega)

/-- If the first `k` attempts all fail retryably and `k` is within the
budget, the loop reaches attempt `k`. -/
lemma with_retry_go_skip (c : RetryConfig) (op : Nat → Except SttError α)
    (k : Nat) (hk : k ≤ c.max_retries)
    (hpre : ∀ i, i < k → ∃ e, op i = .error e ∧ is_retryable_error e = true) :
    with_retry c op = with_retry_go c op k (c.max_retries + 1 - k) := by
  induction k with
  | zero => rfl
  | succ k ih =>
      have hk' : k ≤ c.max_retries := Nat.le_of_succ_le hk
      have hne : ¬(k = c.max_retries) := by omega
      rw [ih hk' (fun i hi => hpre i (Nat.lt_succ_of_lt hi))]
      obtain ⟨e, hope, hret⟩ := hpre k (Nat.lt_succ_self k)
      have hfuel : c.max_retries + 1 - k = (c.max_retries + 1 - (k + 1)) + 1 := by
        omega
      rw [hfuel, with_retry_go_succ, hope]
      dsimp only
      rw [if_neg (by simp [hret, hne])]

/-- The result of with_retry, given a config differing only outside
`max_retries`, is identical: the retry decision never reads
`initial_delay`, `max_delay` or `retry_on_rate_limit`. -/
lemma with_retry_go_config_independent (m i₁ d₁ i₂ d₂ : Nat) (b₁ b₂ : Bool)
    (op : Nat → Except SttError α) :
    ∀ fuel attempt,
      with_retry_go ⟨m, i₁, d₁, b₁⟩ op attempt fuel =
        with_retry_go ⟨m, i₂, d₂, b₂⟩ op attempt fuel := by
  intro fuel
  induction fuel with
  | zero => intro attempt; rfl
  | succ f ih =>
      intro attempt
      rw [with_retry_go_succ, with_retry_go_succ]
      cases hop : op attempt with
      | ok v => rfl
      | error e =>
          dsimp only
          split
          · rfl
          · exact ih (attempt + 1)

/-- C5 (amended): `with_retry` invokes the operation at most
`max_retries + 1` times; if the attempts before `k` all failed retryably
(within budget), a success at attempt `k` is returned immediately, and a
failure at attempt `k` that is non-retryable or exhausts the budget is
returned immediately; and the retryable classification is exactly:
Network and Timeout errors retryable; Api errors retryable iff the
message contains one of the literal substrings `500`, `502`, `503`,
`504`, `429`, or case-insensitively `rate limit` or `too many requests`;
Audio and Config errors never retryable. -/
theorem C5_with_retry_contract (c : RetryConfig) (op : Nat → Except SttError α) :
    ((with_retry c op).2 ≤ c.max_retries + 1)
  ∧ (∀ k v, k ≤ c.max_retries →
      (∀ i, i < k → ∃ e, op i = .error e ∧ is_retryable_error e = true) →
      op k = .ok v → with_retry c op = (.ok v, k + 1))
  ∧ (∀ k e, k ≤ c.max_retries →
      (∀ i, i < k → ∃ e, op i = .error e ∧ is_retryable_error e = true) →
      op k = .error e → (is_retryable_error e = false ∨ k = c.max_retries) →
      with_retry c op = (.error e, k + 1))
  ∧ (∀ e, is_retryable_error e = amended_retryable_C5 e) := by
  refine ⟨?_, ?_, ?_, ?_⟩
  · have := with_retry_go_count c op (c.max_retries + 1) 0
    simpa [with_retry] using this
  · intro k v hk hpre hok
    rw [with_retry_go_skip c op k hk hpre]
    have hfuel : c.max_retries + 1 - k = (c.max_retries - k) + 1 := by omega
    rw [hfuel, with_retry_go_succ, hok]
  · intro k e hk hpre herr hstop
    rw [with_retry_go_skip c op k hk hpre]
    have hfuel : c.max_retries + 1 - k = (c.max_retries - k) + 1 := by omega
    rw [hfuel, with_retry_go_succ, herr]
    dsimp only
    rw [if_pos hstop]
  · intro e
    cases e <;>
      simp [is_retryable_error, amended_retryable_C5, Bool.or_assoc]

/-- Counterexample to C5 as stated: `501 Not Implemented` contains a 5xx
code, so the claim classifies it retryable, but the code checks only the
literals 500/502/503/504 and classifies it non-retryable. -/
theorem C5_counterexample :
    is_retryable_error (.Api "501 Not Implemented") = false
  ∧ claimed_retryable_C5 (.Api "501 Not Implemented") = true := by
  constructor
  · decide
  · decide

/-- Witness for C5 (amended): one retryable Timeout failure, then a
success on the second invocation; two invocations total. -/
theorem C5_with_retry_witness :
    with_retry RetryConfig.default_config
      (fun n => if n = 0 then .error .Timeout else .ok "hi") = (.ok "hi", 2) :=
  (C5_with_retry_contract RetryConfig.default_config
      (fun n => if n = 0 then .error .Timeout else .ok "hi")).2.1 1 "hi"
    (by decide)
    (fun i hi => ⟨.Timeout, by
      have h0 : i = 0 := by omega
      subst h0
      exact ⟨rfl, rfl⟩⟩)
    rfl

/-- C6 (amended): the backoff is deterministic and monotonically
non-decreasing, equals `min(initial_delay * 2^n, max_delay)` whenever the
32-bit exponent factor and the `Duration` product do not saturate, and
takes the claimed concrete values: 500 ms initial delay gives
500/1000/2000/4000 ms for attempts 0..3, and a 2 s cap gives exactly
2000 ms at attempt 10. -/
theorem C6_backoff (c : RetryConfig) (n : Nat) :
    (c.delay_for_attempt n ≤ c.delay_for_attempt (n + 1))
  ∧ (2 ^ n ≤ U32_MAX → c.initial_delay * 2 ^ n ≤ DURATION_MAX_NS →
      c.delay_for_attempt n = min (c.initial_delay * 2 ^ n) c.max_delay)
  ∧ RetryConfig.default_config.delay_for_attempt 0 = 500000000
  ∧ RetryConfig.default_config.delay_for_attempt 1 = 1000000000
  ∧ RetryConfig.default_config.delay_for_attempt 2 = 2000000000
  ∧ RetryConfig.default_config.delay_for_attempt 3 = 4000000000
  ∧ RetryConfig.delay_for_attempt
      { RetryConfig.default_config with max_delay := 2000000000 } 10 = 2000000000 := by
  refine ⟨?_, ?_, by decide, by decide, by decide, by decide, by decide⟩
  · unfold RetryConfig.delay_for_attempt
    refine min_le_min (min_le_min ?_ le_rfl) le_rfl
    exact Nat.mul_le_mul le_rfl
      (min_le_min (Nat.pow_le_pow_right (by norm_num) (Nat.le_succ n)) le_rfl)
  · intro h32 hdur
    unfold RetryConfig.delay_for_attempt
    rw [Nat.min_eq_left h32, Nat.min_eq_left hdur]

/-- Counterexample to C6 as stated: with a 2 ns initial delay and a 10 s
cap, at attempt 32 the claimed formula `min(initial * 2^n, max)` gives
2^33 ns (no `Duration` overflow occurs), but the code computes the
exponent factor in `u32`, which saturates at `2^32 - 1`, giving
`2 * (2^32 - 1)` ns — two nanoseconds less. -/
theorem C6_counterexample :
    RetryConfig.delay_for_attempt ⟨3, 2, 10000000000, true⟩ 32 = 8589934590
  ∧ claimed_delay_C6 ⟨3, 2, 10000000000, true⟩ 32 = 8589934592
  ∧ RetryConfig.delay_for_attempt ⟨3, 2, 10000000000, true⟩ 32 ≠
      claimed_delay_C6 ⟨3, 2, 10000000000, true⟩ 32 := by
  refine ⟨by decide, by decide, by decide⟩

/-- Witness for C6 (amended), at the default config and attempt 2 (no
saturation). -/
theorem C6_backoff_witness :
    RetryConfig.default_config.delay_for_attempt 2 =
      min (RetryConfig.default_config.initial_delay * 2 ^ 2)
        RetryConfig.default_config.max_delay :=
  (C6_backoff RetryConfig.default_config 2).2.1 (by decide) (by decide)

/-- C9: the code ignores `retry_on_rate_limit`.  A 429 rate-limit API
error is classified retryable, and `with_retry` retries it and succeeds on
the second invocation, even with `retry_on_rate_limit = false`; in fact
`with_retry` behaves identically for any two configurations that differ
only in that field (the field is never read). -/
theorem C9_rate_limit_field_ignored :
    is_retryable_error (.Api "429 Too Many Requests") = true
  ∧ with_retry ⟨1, 500000000, 10000000000, false⟩
      (fun n => if n = 0 then .error (.Api "429 Too Many Requests") else .ok "second") =
      (.ok "second", 2)
  ∧ with_retry ⟨1, 500000000, 10000000000, true⟩
      (fun n => if n = 0 then .error (.Api "429 Too Many Requests") else .ok "second") =
      (.ok "second", 2)
  ∧ (∀ (m i d : Nat) (b₁ b₂ : Bool) (op : Nat → Except SttError String),
      with_retry ⟨m, i, d, b₁⟩ op = with_retry ⟨m, i, d, b₂⟩ op) := by
  refine ⟨by decide, by decide, by decide, ?_⟩
  intro m i d b₁ b₂ op
  exact with_retry_go_config_independent m i d i d b₁ b₂ op (m + 1) 0

/-! ## Claim C7: VAD hysteresis -/

/-- A speech-classified frame that does not fire the start condition:
event None, speaking flag unchanged, speech counter incremented, silence
counter reset. -/
lemma process_frame_speech_state (v : VoiceActivityDetector) (f : List Int)
    (h : ¬(v.is_speaking = false ∧
        v.config.speech_frames_threshold ≤ v.speech_frames + 1)) :
    (v.process_frame f true).2 = .None
  ∧ (v.process_frame f true).1.is_speaking = v.is_speaking
  ∧ (v.process_frame f true).1.speech_frames = v.speech_frames + 1
  ∧ (v.process_frame f true).1.silence_frames = 0
  ∧ (v.process_frame f true).1.config = v.config := by
  unfold VoiceActivityDetector.process_frame
  dsimp only
  rw [if_pos rfl, if_neg h]
  exact ⟨rfl, rfl, rfl, rfl, rfl⟩

/-- A speech-classified frame that fires the start condition: SpeechStart,
speaking flag set. -/
lemma process_frame_speech_trigger (v : VoiceActivityDetector) (f : List Int)
    (h : v.is_speaking = false ∧
        v.config.speech_frames_threshold ≤ v.speech_frames + 1) :
    (v.process_frame f true).2.event_kind = .speechStart
  ∧ (v.process_frame f true).1.is_speaking = true
  ∧ (v.process_frame f true).1.speech_frames = v.speech_frames + 1
  ∧ (v.process_frame f true).1.silence_frames = 0
  ∧ (v.process_frame f true).1.config = v.config := by
  unfold VoiceActivityDetector.process_frame
  dsimp only
  rw [if_pos rfl, if_pos h]
  exact ⟨rfl, rfl, rfl, rfl, rfl⟩

/-- A silence-classified frame that does not fire the end condition:
event None, speaking flag unchanged, silence counter incremented, speech
counter reset. -/
lemma process_frame_silence_state (v : VoiceActivityDetector) (f : List Int)
    (h : ¬(v.is_speaking = true ∧
        v.config.hangover_frames ≤ v.silence_frames + 1)) :
    (v.process_frame f false).2 = .None
  ∧ (v.process_frame f false).1.is_speaking = v.is_speaking
  ∧ (v.process_frame f false).1.silence_frames = v.silence_frames + 1
  ∧ (v.process_frame f false).1.speech_frames = 0
  ∧ (v.process_frame f false).1.config = v.config := by
  unfold VoiceActivityDetector.process_frame
  dsimp only
  rw [if_neg Bool.false_ne_true, if_neg h]
  exact ⟨rfl, rfl, rfl, rfl, rfl⟩

/-- A silence-classified frame that fires the end condition: SpeechEnd,
speaking flag cleared. -/
lemma process_frame_silence_trigger (v : VoiceActivityDetector) (f : List Int)
    (h : v.is_speaking = true ∧
        v.config.hangover_frames ≤ v.silence_frames + 1) :
    (v.process_frame f false).2 = .SpeechEnd
  ∧ (v.process_frame f false).1.is_speaking = false
  ∧ (v.process_frame f false).1.silence_frames = v.silence_frames + 1
  ∧ (v.process_frame f false).1.speech_frames = 0
  ∧ (v.process_frame f false).1.config = v.config := by
  unfold VoiceActivityDetector.process_frame
  dsimp only
  rw [if_neg Bool.false_ne_true, if_pos h]
  exact ⟨rfl, rfl, rfl, rfl, rfl⟩

lemma process_frames_nil (v : VoiceActivityDetector) :
    v.process_frames [] = (v, []) := rfl

lemma process_frames_cons (v : VoiceActivityDetector)
    (f : List Int × Bool) (rest : List (List Int × Bool)) :
    v.process_frames (f :: rest) =
      (((v.process_frame f.1 f.2).1.process_frames rest).1,
        (v.process_frame f.1 f.2).2 ::
          ((v.process_frame f.1 f.2).1.process_frames rest).2) := rfl

/-- Processing a concatenation of frame sequences runs the first, then the
second from the resulting state, concatenating the events. -/
lemma process_frames_append (xs ys : List (List Int × Bool)) :
    ∀ v : VoiceActivityDetector,
      v.process_frames (xs ++ ys) =
        (((v.process_frames xs).1.process_frames ys).1,
          (v.process_frames xs).2 ++ ((v.process_frames xs).1.process_frames ys).2) := by
  induction xs with
  | nil => intro v; rw [List.nil_append, process_frames_nil]; rfl
  | cons f rest ih =>
      intro v
      rw [List.cons_append, process_frames_cons, process_frames_cons, ih]
      dsimp only
      rw [List.cons_append]

/-- A run of speech frames that stays strictly below the start threshold:
all events None, still not speaking, speech counter accumulated. -/
lemma speech_run_below (ps : List (List Int)) :
    ∀ v : VoiceActivityDetector, v.is_speaking = false →
      v.speech_frames + ps.length < v.config.speech_frames_threshold →
      ((v.process_frames (speechRun ps)).1.is_speaking = false
      ∧ (v.process_frames (speechRun ps)).1.speech_frames = v.speech_frames + ps.length
      ∧ (v.process_frames (speechRun ps)).1.config = v.config
      ∧ (v.process_frames (speechRun ps)).2 = List.replicate ps.length VadEvent.None) := by
  induction ps with
  | nil =>
      intro v hsp _
      exact ⟨hsp, by simp [speechRun, process_frames_nil], rfl, rfl⟩
  | cons f rest ih =>
      intro v hsp hlt
      rw [List.length_cons] at hlt
      have hcond : ¬(v.is_speaking = false ∧
          v.config.speech_frames_threshold ≤ v.speech_frames + 1) := by
        rintro ⟨_, hle⟩
        omega
      obtain ⟨he, hsp1, hspf, _, hcfg⟩ := process_frame_speech_state v f hcond
      rw [show speechRun (f :: rest) = (f, true) :: speechRun rest from rfl,
        process_frames_cons]
      obtain ⟨ih1, ih2, ih3, ih4⟩ := ih (v.process_frame f true).1
        (by rw [hsp1, hsp])
        (by rw [hspf, hcfg]; omega)
      refine ⟨ih1, ?_, by rw [ih3, hcfg], ?_⟩
      · rw [ih2, hspf, List.length_cons]
        omega
      · rw [List.length_cons, List.replicate_succ]
        dsimp only
        rw [he, ih4]

/-- Speech frames while already speaking never emit events. -/
lemma speech_run_while_speaking (ps : List (List Int)) :
    ∀ v : VoiceActivityDetector, v.is_speaking = true →
      ((v.process_frames (speechRun ps)).1.is_speaking = true
      ∧ (v.process_frames (speechRun ps)).1.config = v.config
      ∧ (v.process_frames (speechRun ps)).2 = List.replicate ps.length VadEvent.None) := by
  induction ps with
  | nil => intro v hsp; exact ⟨hsp, rfl, rfl⟩
  | cons f rest ih =>
      intro v hsp
      have hcond : ¬(v.is_speaking = false ∧
          v.config.speech_frames_threshold ≤ v.speech_frames + 1) := by
        rintro ⟨hfalse, _⟩
        rw [hsp] at hfalse
        exact absurd hfalse (by decide)
      obtain ⟨he, hsp1, _, _, hcfg⟩ := process_frame_speech_state v f hcond
      rw [show speechRun (f :: rest) = (f, true) :: speechRun rest from rfl,
        process_frames_cons]
      obtain ⟨ih1, ih2, ih3⟩ := ih (v.process_frame f true).1 (by rw [hsp1, hsp])
      refine ⟨ih1, by rw [ih2, hcfg], ?_⟩
      rw [List.length_cons, List.replicate_succ]
      dsimp only
      rw [he, ih3]

/-- A run of silence frames while speaking that stays strictly below the
hangover threshold: all events None, still speaking, silence accumulated. -/
lemma silence_run_below (ps : List (List Int)) :
    ∀ v : VoiceActivityDetector, v.is_speaking = true →
      v.silence_frames + ps.length < v.config.hangover_frames →
      ((v.process_frames (silenceRun ps)).1.is_speaking = true
      ∧ (v.process_frames (silenceRun ps)).1.silence_frames = v.silence_frames + ps.length
      ∧ (v.process_frames (silenceRun ps)).1.config = v.config
      ∧ (v.process_frames (silenceRun ps)).2 = List.replicate ps.length VadEvent.None) := by
  induction ps with
  | nil =>
      intro v hsp _
      exact ⟨hsp, by simp [silenceRun, process_frames_nil], rfl, rfl⟩
  | cons f rest ih =>
      intro v hsp hlt
      rw [List.length_cons] at hlt
      have hcond : ¬(v.is_speaking = true ∧
          v.config.hangover_frames ≤ v.silence_frames + 1) := by
        rintro ⟨_, hle⟩
        omega
      obtain ⟨he, hsp1, hsil, _, hcfg⟩ := process_frame_silence_state v f hcond
      rw [show silenceRun (f :: rest) = (f, false) :: silenceRun rest from rfl,
        process_frames_cons]
      obtain ⟨ih1, ih2, ih3, ih4⟩ := ih (v.process_frame f false).1
        (by rw [hsp1, hsp])
        (by rw [hsil, hcfg]; omega)
      refine ⟨ih1, ?_, by rw [ih3, hcfg], ?_⟩
      · rw [ih2, hsil, List.length_cons]
        omega
      · rw [List.length_cons, List.replicate_succ]
        dsimp only
        rw [he, ih4]

/-- Silence frames while not speaking never emit events. -/
lemma silence_run_while_not_speaking (ps : List (List Int)) :
    ∀ v : VoiceActivityDetector, v.is_speaking = false →
      ((v.process_frames (silenceRun ps)).1.is_speaking = false
      ∧ (v.process_frames (silenceRun ps)).1.config = v.config
      ∧ (v.process_frames (silenceRun ps)).2 = List.replicate ps.length VadEvent.None) := by
  induction ps with
  | nil => intro v hsp; exact ⟨hsp, rfl, rfl⟩
  | cons f rest ih =>
      intro v hsp
      have hcond : ¬(v.is_speaking = true ∧
          v.config.hangover_frames ≤ v.silence_frames + 1) := by
        rintro ⟨htrue, _⟩
        rw [hsp] at htrue
        exact absurd htrue (by decide)
      obtain ⟨he, hsp1, _, _, hcfg⟩ := process_frame_silence_state v f hcond
      rw [show silenceRun (f :: rest) = (f, false) :: silenceRun rest from rfl,
        process_frames_cons]
      obtain ⟨ih1, ih2, ih3⟩ := ih (v.process_frame f false).1 (by rw [hsp1, hsp])
      refine ⟨ih1, by rw [ih2, hcfg], ?_⟩
      rw [List.length_cons, List.replicate_succ]
      dsimp only
      rw [he, ih3]

/-- C7: from the not-speaking state (speech counter clear, as it is after
silence), a run of `n ≥ speech_frames_threshold ≥ 1` consecutive
speech-classified frames yields exactly one SpeechStart, emitted on the
frame at which the consecutive-speech count reaches the threshold, all
other events being None; a shorter speech run broken by a silence frame
yields only None.  Symmetrically, from the speaking state (silence
counter clear, as it is after speech), a run of
`n ≥ hangover_frames ≥ 1` consecutive silence-classified frames yields
exactly one SpeechEnd, emitted when the consecutive-silence count reaches
the hangover, all other events None; a shorter silence run broken by a
speech frame yields only None. -/
theorem C7_vad_hysteresis (v : VoiceActivityDetector)
    (ps : List (List Int)) (f : List Int) :
    (v.is_speaking = false → v.speech_frames = 0 →
      1 ≤ v.config.speech_frames_threshold →
      v.config.speech_frames_threshold ≤ ps.length →
      (v.process_frames (speechRun ps)).2.map VadEvent.event_kind =
        List.replicate (v.config.speech_frames_threshold - 1) VadEventKind.noEvent
          ++ VadEventKind.speechStart ::
            List.replicate (ps.length - v.config.speech_frames_threshold)
              VadEventKind.noEvent)
  ∧ (v.is_speaking = false → v.speech_frames = 0 →
      ps.length < v.config.speech_frames_threshold →
      (v.process_frames (speechRun ps ++ [(f, false)])).2.map VadEvent.event_kind =
        List.replicate (ps.length + 1) VadEventKind.noEvent)
  ∧ (v.is_speaking = true → v.silence_frames = 0 →
      1 ≤ v.config.hangover_frames →
      v.config.hangover_frames ≤ ps.length →
      (v.process_frames (silenceRun ps)).2.map VadEvent.event_kind =
        List.replicate (v.config.hangover_frames - 1) VadEventKind.noEvent
          ++ VadEventKind.speechEnd ::
            List.replicate (ps.length - v.config.hangover_frames)
              VadEventKind.noEvent)
  ∧ (v.is_speaking = true → v.silence_frames = 0 →
      ps.length < v.config.hangover_frames →
      (v.process_frames (silenceRun ps ++ [(f, true)])).2.map VadEvent.event_kind =
        List.replicate (ps.length + 1) VadEventKind.noEvent) := by
  refine ⟨?_, ?_, ?_, ?_⟩
  · intro hsp h0 ht hlen
    rcases hB : ps.drop (v.config.speech_frames_threshold - 1) with _ | ⟨g, B⟩
    · exfalso
      have hlen2 := congrArg List.length hB
      rw [List.length_drop] at hlen2
      simp at hlen2
      omega
    · have hps : ps = ps.take (v.config.speech_frames_threshold - 1) ++ g :: B := by
        conv_lhs => rw [← List.take_append_drop (v.config.speech_frames_threshold - 1) ps]
        rw [hB]
      have hAlen : (ps.take (v.config.speech_frames_threshold - 1)).length =
          v.config.speech_frames_threshold - 1 := by
        rw [List.length_take]
        omega
      have hBlen := congrArg List.length hB
      rw [List.length_drop, List.length_cons] at hBlen
      have hcount : (ps.take (v.config.speech_frames_threshold - 1) ++ g :: B).length -
          v.config.speech_frames_threshold = B.length := by
        rw [List.length_append, hAlen, List.length_cons]
        omega
      rw [hps,
        show speechRun (ps.take (v.config.speech_frames_threshold - 1) ++ g :: B) =
            speechRun (ps.take (v.config.speech_frames_threshold - 1)) ++
              (g, true) :: speechRun B from by
          simp [speechRun],
        process_frames_append]
      dsimp only
      obtain ⟨hA1, hA2, hA3, hA4⟩ :=
        speech_run_below (ps.take (v.config.speech_frames_threshold - 1)) v hsp
          (by rw [h0, hAlen]; omega)
      obtain ⟨hT1, hT2, _, _, _⟩ := process_frame_speech_trigger
        (v.process_frames (speechRun (ps.take (v.config.speech_frames_threshold - 1)))).1 g
        ⟨hA1, by rw [hA3, hA2, h0, hAlen]; omega⟩
      obtain ⟨_, _, hB3⟩ := speech_run_while_speaking B _ hT2
      rw [process_frames_cons]
      dsimp only
      rw [hA4, hB3, List.map_append, List.map_cons, List.map_replicate,
        List.map_replicate, hT1, hcount, hAlen]
      rfl
  · intro hsp h0 hlen
    rw [process_frames_append]
    dsimp only
    obtain ⟨hA1, hA2, hA3, hA4⟩ := speech_run_below ps v hsp (by rw [h0]; omega)
    obtain ⟨he, _, _, _, _⟩ := process_frame_silence_state
      (v.process_frames (speechRun ps)).1 f
      (by rintro ⟨htrue, _⟩; rw [hA1] at htrue; exact absurd htrue (by decide))
    rw [process_frames_cons]
    dsimp only
    rw [process_frames_nil]
    dsimp only
    rw [hA4, he, List.map_append, List.map_cons, List.map_replicate,
      List.map_nil, List.replicate_succ']
    rfl
  · intro hsp h0 hg hlen
    rcases hB : ps.drop (v.config.hangover_frames - 1) with _ | ⟨g, B⟩
    · exfalso
      have hlen2 := congrArg List.length hB
      rw [List.length_drop] at hlen2
      simp at hlen2
      omega
    · have hps : ps = ps.take (v.config.hangover_frames - 1) ++ g :: B := by
        conv_lhs => rw [← List.take_append_drop (v.config.hangover_frames - 1) ps]
        rw [hB]
      have hAlen : (ps.take (v.config.hangover_frames - 1)).length =
          v.config.hangover_frames - 1 := by
        rw [List.length_take]
        omega
      have hBlen := congrArg List.length hB
      rw [List.length_drop, List.length_cons] at hBlen
      have hcount : (ps.take (v.config.hangover_frames - 1) ++ g :: B).length -
          v.config.hangover_frames = B.length := by
        rw [List.length_append, hAlen, List.length_cons]
        omega
      rw [hps,
        show silenceRun (ps.take (v.config.hangover_frames - 1) ++ g :: B) =
            silenceRun (ps.take (v.config.hangover_frames - 1)) ++
              (g, false) :: silenceRun B from by
          simp [silenceRun],
        process_frames_append]
      dsimp only
      obtain ⟨hA1, hA2, hA3, hA4⟩ :=
        silence_run_below (ps.take (v.config.hangover_frames - 1)) v hsp
          (by rw [h0, hAlen]; omega)
      obtain ⟨hT1, hT2, _, _, _⟩ := process_frame_silence_trigger
        (v.process_frames (silenceRun (ps.take (v.config.hangover_frames - 1)))).1 g
        ⟨hA1, by rw [hA3, hA2, h0, hAlen]; omega⟩
      obtain ⟨_, _, hB3⟩ := silence_run_while_not_speaking B _ hT2
      rw [process_frames_cons]
      dsimp only
      rw [hA4, hB3, List.map_append, List.map_cons, List.map_replicate,
        List.map_replicate, hT1, hcount, hAlen]
      rfl
  · intro hsp h0 hlen
    rw [process_frames_append]
    dsimp only
    obtain ⟨hA1, hA2, hA3, hA4⟩ := silence_run_below ps v hsp (by rw [h0]; omega)
    obtain ⟨he, _, _, _, _⟩ := process_frame_speech_state
      (v.process_frames (silenceRun ps)).1 f
      (by rintro ⟨hfalse, _⟩; rw [hA1] at hfalse; exact absurd hfalse (by decide))
    rw [process_frames_cons]
    dsimp only
    rw [process_frames_nil]
    dsimp only
    rw [hA4, he, List.map_append, List.map_cons, List.map_replicate,
      List.map_nil, List.replicate_succ']
    rfl

/-- Witness for C7: with threshold 2 and hangover 2, three speech frames
from a fresh detector give None, SpeechStart, None; three silence frames
from a speaking detector give None, SpeechEnd, None. -/
theorem C7_vad_witness :
    ((VoiceActivityDetector.new ⟨.Aggressive, 2, 2, 300, 10, 16000⟩).process_frames
        (speechRun [[1], [2], [3]])).2.map VadEvent.event_kind =
      [.noEvent, .speechStart, .noEvent]
  ∧ ((⟨⟨.Aggressive, 2, 2, 300, 10, 16000⟩, true, 0, 0, [], 30⟩ :
        VoiceActivityDetector).process_frames
        (silenceRun [[1], [2], [3]])).2.map VadEvent.event_kind =
      [.noEvent, .speechEnd, .noEvent] := by
  constructor
  · rw [(C7_vad_hysteresis (VoiceActivityDetector.new ⟨.Aggressive, 2, 2, 300, 10, 16000⟩)
      [[1], [2], [3]] []).1 rfl rfl (by decide) (by decide)]
    rfl
  · rw [(C7_vad_hysteresis
      (⟨⟨.Aggressive, 2, 2, 300, 10, 16000⟩, true, 0, 0, [], 30⟩ : VoiceActivityDetector)
      [[1], [2], [3]] []).2.2.1 rfl rfl (by decide) (by decide)]
    rfl

end Tangerine
